import Mathlib

/-!
Verification of the saveetha-item-compass client-side core: the Session
Manager (auth context, `register`) and the Item Cache (data context:
`loadItems`, `addItem`, `updateItemStatus`, `deleteItem`,
`deleteItemsByFilter`, and the derived views `getEmergencyItems` /
`getNormalItems`).

The source is a React/TypeScript client talking to a remote store
(Supabase).  The embedding is a shallow one: each operation becomes a pure
Lean function from its inputs, the previous local state, and an explicit
oracle value describing the outcome of the remote call(s) it performs, to
a result record that carries the new local state together with the
observable effects (which remote calls were issued and with what
arguments, which toast notifications were emitted, whether the operation
re-threw).
-/

/-- `UserRole` enum from the app's type declarations: `'user' | 'admin'`. -/
inductive UserRole
  | user
  | admin
deriving DecidableEq, Repr

/-- `ItemType` enum: `'normal' | 'emergency'`. -/
inductive ItemType
  | normal
  | emergency
deriving DecidableEq, Repr

/-- `ItemStatus` enum: `'lost' | 'found'`. -/
inductive ItemStatus
  | lost
  | found
deriving DecidableEq, Repr

/-- `ItemPlace` enum: `'lost' | 'found'` (the data contract's constrained
place field). -/
inductive ItemPlace
  | lost
  | found
deriving DecidableEq, Repr

/-- The application `User` held by the Session Manager. -/
structure User where
  id : String
  name : String
  email : String
  role : UserRole
  createdAt : String
deriving DecidableEq, Repr

/-- The application `Item` record (data context's element type). -/
structure Item where
  id : String
  userId : String
  userName : String
  userPhone : String
  productName : String
  photo : Option String
  place : ItemPlace
  date : String
  type : ItemType
  status : ItemStatus
  createdAt : String
deriving DecidableEq, Repr

/-- JavaScript `x || d` on an optional string: `null`/`undefined` and the
empty string are falsy and yield the default. -/
def jsOrStr (x : Option String) (d : String) : String :=
  match x with
  | some s => if s = "" then d else s
  | none => d

/-- Admin code for local admin registration (`ADMIN_CODE` constant in the
auth context). -/
def ADMIN_CODE : String := "79041167197200060295"

/-- The profile row inserted into the `profiles` table on registration:
`{ id: data.user.id, role, name }`. -/
structure Profile where
  id : String
  role : UserRole
  name : String
deriving DecidableEq, Repr

/-- Oracle for `supabase.auth.signUp`: either an error (with its message)
or success, carrying the created user's id when a user object is returned
and whether a session was established. -/
inductive SignUpResponse
  | err (msg : String)
  | ok (userId : Option String) (hasSession : Bool)
deriving DecidableEq, Repr

/-- Observable result of one `register` call: toasts emitted, whether the
operation re-threw, whether `signUp` was called and with which `role` in
its metadata, which profile row (if any) was inserted, and whether a
session was created. -/
structure RegisterResult where
  toastError : Option String
  toastSuccess : Option String
  threw : Bool
  signUpCalled : Bool
  signUpRole : Option UserRole
  profileInsert : Option Profile
  sessionCreated : Bool
deriving DecidableEq, Repr

/-- The part of `register` after the role has been determined: the
`supabase.auth.signUp` call, the `profiles` insert when a user object is
returned, and the toasts / rethrow of the surrounding try-catch. -/
def registerSignUp (name : String) (role : UserRole) (resp : SignUpResponse)
    (profileInsertFails : Bool) : RegisterResult :=
  match resp with
  | .err msg =>
      { toastError := some (jsOrStr (some msg) "Failed to register")
        toastSuccess := none
        threw := true
        signUpCalled := true
        signUpRole := some role
        profileInsert := none
        sessionCreated := false }
  | .ok userId hasSession =>
      match userId with
      | some uid =>
          { toastError :=
              if profileInsertFails then
                some "Account created but profile setup failed"
              else none
            toastSuccess := some ("Registration successful! " ++
              (if hasSession then "" else
                "Please check your email to confirm your account."))
            threw := false
            signUpCalled := true
            signUpRole := some role
            profileInsert := some { id := uid, role := role, name := name }
            sessionCreated := hasSession }
      | none =>
          { toastError := none
            toastSuccess := none
            threw := false
            signUpCalled := true
            signUpRole := some role
            profileInsert := none
            sessionCreated := hasSession }

/-- `register(name, email, password, adminCode?)` from the auth context.
`adminCode` is `none` when the argument is omitted.  The JS guard
`if (adminCode)` treats the empty string as falsy, so the admin-code gate
only applies to a supplied non-empty string. -/
def register (name : String) (adminCode : Option String)
    (resp : SignUpResponse) (profileInsertFails : Bool) : RegisterResult :=
  match adminCode with
  | some code =>
      if code ≠ "" then
        if code = ADMIN_CODE then
          registerSignUp name UserRole.admin resp profileInsertFails
        else
          { toastError := some "Invalid admin code"
            toastSuccess := none
            threw := false
            signUpCalled := false
            signUpRole := none
            profileInsert := none
            sessionCreated := false }
      else
        registerSignUp name UserRole.user resp profileInsertFails
  | none => registerSignUp name UserRole.user resp profileInsertFails

/-- A row of the remote `items` table as returned by the store.  The
snake-case column names follow the source's `mapSupabaseItem` accesses;
`name`/`phone_number`/`photo_url` are nullable, and `place`/`type`/`status`
carry the enum values the source casts them to (`item.place as ItemPlace`
etc.). -/
structure SupabaseRow where
  id : String
  user_id : String
  name : Option String
  phone_number : Option String
  product_name : String
  photo_url : Option String
  place : ItemPlace
  date : String
  type : ItemType
  status : ItemStatus
  created_at : String
deriving DecidableEq, Repr

/-- `mapSupabaseItem`: convert a remote row to the app's `Item` type.
`item.name || 'Unknown User'` and `item.phone_number || ''` use JS
truthiness (null or empty string falls back). -/
def mapSupabaseItem (item : SupabaseRow) : Item :=
  { id := item.id
    userId := item.user_id
    userName := jsOrStr item.name "Unknown User"
    userPhone := jsOrStr item.phone_number ""
    productName := item.product_name
    photo := item.photo_url
    place := item.place
    date := item.date
    type := item.type
    status := item.status
    createdAt := item.created_at }

/-- `INITIAL_ITEMS`: the built-in fallback sample dataset used when the
remote load fails. -/
def INITIAL_ITEMS : List Item :=
  [ { id := "item1"
      userId := "2"
      userName := "Test User"
      userPhone := "9876543210"
      productName := "Water Bottle"
      photo := some "https://images.unsplash.com/photo-1618160702438-9b02ab6515c9"
      place := ItemPlace.lost
      date := "2023-05-15T10:30:00Z"
      type := ItemType.normal
      status := ItemStatus.lost
      createdAt := "2023-05-15T10:30:00Z" }
  , { id := "item2"
      userId := "2"
      userName := "Test User"
      userPhone := "9876543210"
      productName := "Laptop"
      photo := none
      place := ItemPlace.lost
      date := "2023-05-17T14:20:00Z"
      type := ItemType.emergency
      status := ItemStatus.lost
      createdAt := "2023-05-17T14:20:00Z" }
  , { id := "item3"
      userId := "1"
      userName := "Admin User"
      userPhone := "9876543211"
      productName := "Wallet"
      photo := none
      place := ItemPlace.found
      date := "2023-05-18T09:15:00Z"
      type := ItemType.normal
      status := ItemStatus.found
      createdAt := "2023-05-18T09:15:00Z" } ]

/-- Outcome oracle for the remote select in `loadItems`: either an error,
or the rows the store returns (already ordered by `created_at` descending
by the query). -/
inductive LoadOutcome
  | err
  | ok (rows : List SupabaseRow)
deriving DecidableEq, Repr

/-- Result of `loadItems`: the new local list and the error toast, if
any. -/
structure LoadResult where
  items : List Item
  toastError : Option String
deriving DecidableEq, Repr

/-- `loadItems()`: on success the local list is replaced by the mapped
rows; on failure an error toast is shown and the list is replaced by the
fallback sample data. -/
def loadItems (outcome : LoadOutcome) : LoadResult :=
  match outcome with
  | .ok rows => { items := rows.map mapSupabaseItem, toastError := none }
  | .err =>
      { items := INITIAL_ITEMS, toastError := some "Failed to load items" }

/-- The payload of `addItem`: `Omit<Item, "id" | "userId" | "createdAt">`. -/
structure NewItemData where
  userName : String
  userPhone : String
  productName : String
  photo : Option String
  place : ItemPlace
  date : String
  type : ItemType
  status : ItemStatus
deriving DecidableEq, Repr

/-- The `itemData` object `addItem` sends to the remote insert.  The
`date` column gets `new Date(d.date).toISOString().split('T')[0]`; the
normalisation through `Date` is abstracted as taking the part of the ISO
string before the `T`. -/
structure ItemInsertData where
  user_id : String
  name : String
  phone_number : String
  product_name : String
  photo_url : Option String
  place : ItemPlace
  date : String
  type : ItemType
  status : ItemStatus
deriving DecidableEq, Repr

/-- `new Date(s).toISOString().split('T')[0]` on an ISO timestamp string:
the date part before the `T`. -/
def toDateOnly (s : String) : String :=
  ((s.splitOn "T").headD s)

/-- Build the `itemData` row `addItem` inserts remotely. -/
def mkItemInsertData (userId : String) (d : NewItemData) : ItemInsertData :=
  { user_id := userId
    name := d.userName
    phone_number := d.userPhone
    product_name := d.productName
    photo_url := d.photo
    place := d.place
    date := toDateOnly d.date
    type := d.type
    status := d.status }

/-- Outcome oracle for the remote `insert(...).select().single()` in
`addItem`: an error, or the single canonical row the store returns. -/
inductive InsertOutcome
  | err
  | ok (row : SupabaseRow)
deriving DecidableEq, Repr

/-- Result of `addItem`: new local list, the insert payload actually sent
(none when no remote call was made), and the toasts. -/
structure AddItemResult where
  items : List Item
  remoteInsert : Option ItemInsertData
  toastError : Option String
  toastSuccess : Option String
deriving DecidableEq, Repr

/-- `addItem(newItemData)`: requires a logged-in user; on remote success
prepends the mapped returned row to the local list; on remote failure
leaves the list untouched and toasts an error. -/
def addItem (user : Option User) (newItemData : NewItemData)
    (outcome : InsertOutcome) (items : List Item) : AddItemResult :=
  match user with
  | none =>
      { items := items
        remoteInsert := none
        toastError := some "You must be logged in to add an item"
        toastSuccess := none }
  | some u =>
      let itemData := mkItemInsertData u.id newItemData
      match outcome with
      | .err =>
          { items := items
            remoteInsert := some itemData
            toastError := some "Failed to add item"
            toastSuccess := none }
      | .ok row =>
          { items := mapSupabaseItem row :: items
            remoteInsert := some itemData
            toastError := none
            toastSuccess := some "Item added successfully" }

/-- Generic outcome oracle for a remote call whose result payload is not
inspected (update / delete). -/
inductive RemoteOutcome
  | err
  | ok
deriving DecidableEq, Repr

/-- The remote update call issued by `updateItemStatus`: it sets `status`
to `newStatus` on the rows whose `id` equals `idEq`. -/
structure UpdateCall where
  newStatus : ItemStatus
  idEq : String
deriving DecidableEq, Repr

/-- String rendering of a status, for toast messages. -/
def statusStr : ItemStatus → String
  | .lost => "lost"
  | .found => "found"

/-- Result of `updateItemStatus`: new local list, the remote update call
issued, and the toasts. -/
structure UpdateStatusResult where
  items : List Item
  remoteUpdate : UpdateCall
  toastError : Option String
  toastSuccess : Option String
deriving DecidableEq, Repr

/-- `updateItemStatus(id, status)`: always issues the remote update scoped
to `id`; on success patches the matching local record(s), on failure
leaves the list untouched and toasts an error. -/
def updateItemStatus (id : String) (status : ItemStatus)
    (outcome : RemoteOutcome) (items : List Item) : UpdateStatusResult :=
  match outcome with
  | .err =>
      { items := items
        remoteUpdate := { newStatus := status, idEq := id }
        toastError := some "Failed to update item status"
        toastSuccess := none }
  | .ok =>
      { items := items.map (fun item =>
          if item.id = id then { item with status := status } else item)
        remoteUpdate := { newStatus := status, idEq := id }
        toastError := none
        toastSuccess := some ("Item marked as " ++ statusStr status) }

/-- Result of `deleteItem`: new local list, whether the remote delete was
issued and for which id, and the toasts. -/
structure DeleteItemResult where
  items : List Item
  remoteDelete : Option String
  toastError : Option String
  toastSuccess : Option String
deriving DecidableEq, Repr

/-- `deleteItem(id)`: issues the remote delete scoped to `id`; on success
filters the record out of the local list. -/
def deleteItem (id : String) (outcome : RemoteOutcome)
    (items : List Item) : DeleteItemResult :=
  match outcome with
  | .err =>
      { items := items
        remoteDelete := some id
        toastError := some "Failed to delete item"
        toastSuccess := none }
  | .ok =>
      { items := items.filter (fun item => item.id ≠ id)
        remoteDelete := some id
        toastError := none
        toastSuccess := some "Item deleted successfully" }

/-- The date-range filter argument of `deleteItemsByFilter`
(`{ start, end }`; `end` is a Lean keyword, rendered `stop`). -/
structure DateRange where
  start : String
  stop : String
deriving DecidableEq, Repr

/-- The `type` filter argument of `deleteItemsByFilter`:
`ItemType | "all"`. -/
inductive TypeFilter
  | all
  | only (t : ItemType)
deriving DecidableEq, Repr

/-- The remote delete query `deleteItemsByFilter` builds: optional
inclusive bounds on the `date` column and an optional equality on the
`type` column, ANDed together. -/
structure DeleteFilterQuery where
  gteDate : Option String
  lteDate : Option String
  eqType : Option ItemType
deriving DecidableEq, Repr

/-- Build the delete query the way the source does: start from a bare
delete, add `gte/lte` bounds when a date range is supplied, add the type
equality when a type is supplied and is not `"all"`. -/
def buildDeleteQuery (dateRange : Option DateRange)
    (typeFilter : Option TypeFilter) : DeleteFilterQuery :=
  let query : DeleteFilterQuery :=
    { gteDate := none, lteDate := none, eqType := none }
  let query :=
    match dateRange with
    | some dr => { query with gteDate := some dr.start, lteDate := some dr.stop }
    | none => query
  match typeFilter with
  | some TypeFilter.all => query
  | some (TypeFilter.only t) => { query with eqType := some t }
  | none => query

/-- Result of `deleteItemsByFilter`: new local list, the remote delete
query issued (none when the call was rejected), and the toasts. -/
structure DeleteFilterResult where
  items : List Item
  remoteDelete : Option DeleteFilterQuery
  toastError : Option String
  toastSuccess : Option String
deriving DecidableEq, Repr

/-- `deleteItemsByFilter(dateRange?, type?)`: rejected with a toast for a
missing or non-admin user; otherwise issues the filtered remote delete
and, on success, replaces the local list via a full `loadItems()` reload
(whose own remote fetch outcome is the `reload` oracle). -/
def deleteItemsByFilter (user : Option User) (dateRange : Option DateRange)
    (typeFilter : Option TypeFilter) (outcome : RemoteOutcome)
    (reload : LoadOutcome) (items : List Item) : DeleteFilterResult :=
  match user with
  | none =>
      { items := items
        remoteDelete := none
        toastError := some "Only admins can perform batch deletions"
        toastSuccess := none }
  | some u =>
      if u.role ≠ UserRole.admin then
        { items := items
          remoteDelete := none
          toastError := some "Only admins can perform batch deletions"
          toastSuccess := none }
      else
        let query := buildDeleteQuery dateRange typeFilter
        match outcome with
        | .err =>
            { items := items
              remoteDelete := some query
              toastError := some "Failed to delete items"
              toastSuccess := none }
        | .ok =>
            { items := (loadItems reload).items
              remoteDelete := some query
              toastError := none
              toastSuccess := some "Items deleted successfully" }

/-- `getUserItems()`: the current user's items (empty when logged out). -/
def getUserItems (user : Option User) (items : List Item) : List Item :=
  match user with
  | none => []
  | some u => items.filter (fun item => item.userId = u.id)

/-- `getEmergencyItems()`: the items of type `"emergency"`. -/
def getEmergencyItems (items : List Item) : List Item :=
  items.filter (fun item => item.type = ItemType.emergency)

/-- `getNormalItems()`: the items of type `"normal"`. -/
def getNormalItems (items : List Item) : List Item :=
  items.filter (fun item => item.type = ItemType.normal)

/-- `getItemById(id)`: the first local item with the given id. -/
def getItemById (id : String) (items : List Item) : Option Item :=
  items.find? (fun item => item.id = id)

/-- `registerSignUp` always calls the identity provider's sign-up. -/
theorem registerSignUp_signUpCalled (name : String) (role : UserRole)
    (resp : SignUpResponse) (profileInsertFails : Bool) :
    (registerSignUp name role resp profileInsertFails).signUpCalled = true := by
  cases resp with
  | err msg => rfl
  | ok userId hasSession => cases userId <;> rfl

/-- `registerSignUp` passes the determined role to the sign-up call. -/
theorem registerSignUp_signUpRole (name : String) (role : UserRole)
    (resp : SignUpResponse) (profileInsertFails : Bool) :
    (registerSignUp name role resp profileInsertFails).signUpRole = some role := by
  cases resp with
  | err msg => rfl
  | ok userId hasSession => cases userId <;> rfl

/-- Claim C1: a supplied non-empty admin code different from the fixed
secret makes `register` surface the "Invalid admin code" rejection toast
without throwing, without calling the identity provider's sign-up, without
creating a session, and without inserting any profile (so no admin role is
granted). -/
theorem C1_invalid_admin_code_rejected (name code : String)
    (resp : SignUpResponse) (profileInsertFails : Bool)
    (hne : code ≠ "") (hcode : code ≠ ADMIN_CODE) :
    (register name (some code) resp profileInsertFails).toastError =
        some "Invalid admin code" ∧
    (register name (some code) resp profileInsertFails).threw = false ∧
    (register name (some code) resp profileInsertFails).signUpCalled = false ∧
    (register name (some code) resp profileInsertFails).sessionCreated = false ∧
    (register name (some code) resp profileInsertFails).profileInsert = none ∧
    (register name (some code) resp profileInsertFails).signUpRole = none := by
  simp [register, hne, hcode]

/-- Witness for C1 at the concrete rejected code `"wrong"`. -/
theorem C1_witness :
    ("wrong" : String) ≠ "" ∧ ("wrong" : String) ≠ ADMIN_CODE ∧
    ((register "Alice" (some "wrong") (SignUpResponse.ok (some "uid1") true)
        false).toastError = some "Invalid admin code" ∧
      (register "Alice" (some "wrong") (SignUpResponse.ok (some "uid1") true)
        false).threw = false ∧
      (register "Alice" (some "wrong") (SignUpResponse.ok (some "uid1") true)
        false).signUpCalled = false ∧
      (register "Alice" (some "wrong") (SignUpResponse.ok (some "uid1") true)
        false).sessionCreated = false ∧
      (register "Alice" (some "wrong") (SignUpResponse.ok (some "uid1") true)
        false).profileInsert = none ∧
      (register "Alice" (some "wrong") (SignUpResponse.ok (some "uid1") true)
        false).signUpRole = none) :=
  ⟨by decide, by decide,
    C1_invalid_admin_code_rejected "Alice" "wrong"
      (SignUpResponse.ok (some "uid1") true) false (by decide) (by decide)⟩

/-- Claim C2: registering with the exact admin code, when the
identity-provider sign-up succeeds with a user object, inserts a profile
row carrying role `admin` for the new account. -/
theorem C2_admin_code_grants_admin_profile (name uid : String)
    (hasSession : Bool) (profileInsertFails : Bool) :
    (register name (some ADMIN_CODE)
        (SignUpResponse.ok (some uid) hasSession) profileInsertFails).profileInsert =
      some { id := uid, role := UserRole.admin, name := name } := by
  have h1 : ADMIN_CODE ≠ "" := by decide
  simp [register, registerSignUp, h1]

/-- Claim C10: registering with the empty string as admin code behaves
exactly like registering with no admin code at all: the gate is skipped,
the identity provider's sign-up is called, and the role passed is
`user`. -/
theorem C10_empty_admin_code_normal_registration (name : String)
    (resp : SignUpResponse) (profileInsertFails : Bool) :
    register name (some "") resp profileInsertFails =
      register name none resp profileInsertFails ∧
    (register name (some "") resp profileInsertFails).signUpCalled = true ∧
    (register name (some "") resp profileInsertFails).signUpRole =
      some UserRole.user := by
  refine ⟨by simp [register], ?_, ?_⟩
  · simp [register, registerSignUp_signUpCalled]
  · simp [register, registerSignUp_signUpRole]

/-- Claim C3: for every local cache state, emergency and normal views are
disjoint and together they are a permutation of (hence cover exactly) the
full local item list. -/
theorem C3_emergency_normal_partition (items : List Item) :
    (getEmergencyItems items ++ getNormalItems items).Perm items ∧
    (∀ x, x ∈ getEmergencyItems items → x ∉ getNormalItems items) := by
  constructor
  · induction items with
    | nil => simp [getEmergencyItems, getNormalItems]
    | cons x l ih =>
      cases hx : x.type with
      | emergency =>
        simp only [getEmergencyItems, getNormalItems, List.filter_cons, hx]
        simp only [decide_True, decide_False, if_true, if_false]
        simpa using List.Perm.cons x ih
      | normal =>
        simp only [getEmergencyItems, getNormalItems, List.filter_cons, hx]
        simp only [decide_True, decide_False, if_true, if_false]
        exact List.perm_middle.trans (List.Perm.cons x ih)
  · intro x hxe hxn
    have he : x.type = ItemType.emergency := by
      simpa using (List.mem_filter.mp hxe).2
    have hn : x.type = ItemType.normal := by
      simpa using (List.mem_filter.mp hxn).2
    rw [he] at hn
    cases hn

/-- Claim C4: when the user is logged in and the remote insert succeeds
with a canonical row (its `status`/`type` columns echo the submitted
values), `addItem` prepends the mapped row: it is the head of the new
local list, the tail is the previous list, and its `status` and `type`
equal the submitted ones. -/
theorem C4_addItem_success_prepends (u : User) (d : NewItemData)
    (row : SupabaseRow) (st : List Item)
    (hstatus : row.status = d.status) (htype : row.type = d.type) :
    (addItem (some u) d (InsertOutcome.ok row) st).items =
      mapSupabaseItem row :: st ∧
    (addItem (some u) d (InsertOutcome.ok row) st).items.head? =
      some (mapSupabaseItem row) ∧
    (addItem (some u) d (InsertOutcome.ok row) st).items.tail = st ∧
    (mapSupabaseItem row).status = d.status ∧
    (mapSupabaseItem row).type = d.type := by
  refine ⟨rfl, rfl, rfl, ?_, ?_⟩
  · simpa [mapSupabaseItem] using hstatus
  · simpa [mapSupabaseItem] using htype

/-- A sample logged-in (non-admin) user for witnesses. -/
def sampleUser : User :=
  { id := "u1", name := "Test User", email := "t@sec.edu",
    role := UserRole.user, createdAt := "2024-01-01T00:00:00Z" }

/-- A sample item payload for witnesses. -/
def sampleNewItem : NewItemData :=
  { userName := "Test User", userPhone := "9876543210",
    productName := "Notebook", photo := none, place := ItemPlace.lost,
    date := "2024-02-03T10:00:00Z", type := ItemType.normal,
    status := ItemStatus.lost }

/-- A sample canonical row echoing `sampleNewItem`, for witnesses. -/
def sampleRow : SupabaseRow :=
  { id := "srv1", user_id := "u1", name := some "Test User",
    phone_number := some "9876543210", product_name := "Notebook",
    photo_url := none, place := ItemPlace.lost, date := "2024-02-03",
    type := ItemType.normal, status := ItemStatus.lost,
    created_at := "2024-02-03T10:00:05Z" }

/-- Witness for C4 on the sample payload and row. -/
theorem C4_witness :
    sampleRow.status = sampleNewItem.status ∧
    sampleRow.type = sampleNewItem.type ∧
    ((addItem (some sampleUser) sampleNewItem (InsertOutcome.ok sampleRow)
        []).items = mapSupabaseItem sampleRow :: [] ∧
      (addItem (some sampleUser) sampleNewItem (InsertOutcome.ok sampleRow)
        []).items.head? = some (mapSupabaseItem sampleRow) ∧
      (addItem (some sampleUser) sampleNewItem (InsertOutcome.ok sampleRow)
        []).items.tail = [] ∧
      (mapSupabaseItem sampleRow).status = sampleNewItem.status ∧
      (mapSupabaseItem sampleRow).type = sampleNewItem.type) :=
  ⟨rfl, rfl,
    C4_addItem_success_prepends sampleUser sampleNewItem sampleRow [] rfl rfl⟩

/-- Claim C5: `deleteItemsByFilter` with no user or a non-admin user
issues no remote delete, leaves the local list unchanged, and shows the
rejection toast. -/
theorem C5_deleteItemsByFilter_non_admin (user : Option User)
    (dateRange : Option DateRange) (typeFilter : Option TypeFilter)
    (outcome : RemoteOutcome) (reload : LoadOutcome) (st : List Item)
    (h : ∀ u, user = some u → u.role ≠ UserRole.admin) :
    (deleteItemsByFilter user dateRange typeFilter outcome reload st).remoteDelete =
      none ∧
    (deleteItemsByFilter user dateRange typeFilter outcome reload st).items = st ∧
    (deleteItemsByFilter user dateRange typeFilter outcome reload st).toastError =
      some "Only admins can perform batch deletions" := by
  cases user with
  | none => exact ⟨rfl, rfl, rfl⟩
  | some u =>
    have hu : u.role ≠ UserRole.admin := h u rfl
    simp [deleteItemsByFilter, hu]

/-- Witness for C5: a logged-in non-admin caller is rejected. -/
theorem C5_witness :
    (∀ u, some sampleUser = some u → u.role ≠ UserRole.admin) ∧
    ((deleteItemsByFilter (some sampleUser) none (some TypeFilter.all)
        RemoteOutcome.ok LoadOutcome.err []).remoteDelete = none ∧
      (deleteItemsByFilter (some sampleUser) none (some TypeFilter.all)
        RemoteOutcome.ok LoadOutcome.err []).items = [] ∧
      (deleteItemsByFilter (some sampleUser) none (some TypeFilter.all)
        RemoteOutcome.ok LoadOutcome.err []).toastError =
        some "Only admins can perform batch deletions") :=
  ⟨fun u hu => by cases hu; decide,
    C5_deleteItemsByFilter_non_admin (some sampleUser) none
      (some TypeFilter.all) RemoteOutcome.ok LoadOutcome.err []
      (fun u hu => by cases hu; decide)⟩

/-- Claim C6: a successful `updateItemStatus(id, status)` issues the
remote update scoped to exactly `id`, and in the local list every position
holds the old record untouched unless its id matches, in which case only
`status` changes (all other fields of the record are kept). -/
theorem C6_updateItemStatus_frame (id : String) (status : ItemStatus)
    (st : List Item) :
    (updateItemStatus id status RemoteOutcome.ok st).remoteUpdate =
      { newStatus := status, idEq := id } ∧
    (updateItemStatus id status RemoteOutcome.ok st).items.length = st.length ∧
    (∀ i : Nat, (updateItemStatus id status RemoteOutcome.ok st).items[i]? =
      (st[i]?).map (fun item =>
        if item.id = id then { item with status := status } else item)) := by
  refine ⟨rfl, ?_, ?_⟩
  · simp [updateItemStatus]
  · intro i
    simp [updateItemStatus]

/-- Claim C7: when the remote fetch fails, `loadItems` sets the local
list to the built-in fallback sample dataset, which has exactly three
items and is not empty. -/
theorem C7_loadItems_failure_fallback :
    (loadItems LoadOutcome.err).items = INITIAL_ITEMS ∧
    (loadItems LoadOutcome.err).items.length = 3 ∧
    (loadItems LoadOutcome.err).items ≠ [] := by
  refine ⟨rfl, rfl, ?_⟩
  intro h
  simp [loadItems, INITIAL_ITEMS] at h

/-- A sample admin user for witnesses. -/
def sampleAdmin : User :=
  { id := "a1", name := "Admin User", email := "a@sec.edu",
    role := UserRole.admin, createdAt := "2024-01-01T00:00:00Z" }

/-- Claim C8: every mutation other than `loadItems` — `addItem`,
`updateItemStatus`, `deleteItem`, and (for an admin caller)
`deleteItemsByFilter` — leaves the local list exactly as it was when its
remote call fails, and surfaces the failure as an error toast. -/
theorem C8_remote_failure_leaves_state (u adminU : User) (d : NewItemData)
    (id1 id2 : String) (status : ItemStatus) (dateRange : Option DateRange)
    (typeFilter : Option TypeFilter) (reload : LoadOutcome) (st : List Item)
    (hadmin : adminU.role = UserRole.admin) :
    ((addItem (some u) d InsertOutcome.err st).items = st ∧
      (addItem (some u) d InsertOutcome.err st).toastError =
        some "Failed to add item") ∧
    ((updateItemStatus id1 status RemoteOutcome.err st).items = st ∧
      (updateItemStatus id1 status RemoteOutcome.err st).toastError =
        some "Failed to update item status") ∧
    ((deleteItem id2 RemoteOutcome.err st).items = st ∧
      (deleteItem id2 RemoteOutcome.err st).toastError =
        some "Failed to delete item") ∧
    ((deleteItemsByFilter (some adminU) dateRange typeFilter
        RemoteOutcome.err reload st).items = st ∧
      (deleteItemsByFilter (some adminU) dateRange typeFilter
        RemoteOutcome.err reload st).toastError =
        some "Failed to delete items") := by
  refine ⟨⟨rfl, rfl⟩, ⟨rfl, rfl⟩, ⟨rfl, rfl⟩, ?_⟩
  simp [deleteItemsByFilter, hadmin]

/-- Witness for C8 at concrete inputs with an admin caller. -/
theorem C8_witness :
    sampleAdmin.role = UserRole.admin ∧
    (((addItem (some sampleUser) sampleNewItem InsertOutcome.err
        INITIAL_ITEMS).items = INITIAL_ITEMS ∧
      (addItem (some sampleUser) sampleNewItem InsertOutcome.err
        INITIAL_ITEMS).toastError = some "Failed to add item") ∧
    ((updateItemStatus "item1" ItemStatus.found RemoteOutcome.err
        INITIAL_ITEMS).items = INITIAL_ITEMS ∧
      (updateItemStatus "item1" ItemStatus.found RemoteOutcome.err
        INITIAL_ITEMS).toastError = some "Failed to update item status") ∧
    ((deleteItem "item2" RemoteOutcome.err INITIAL_ITEMS).items =
        INITIAL_ITEMS ∧
      (deleteItem "item2" RemoteOutcome.err INITIAL_ITEMS).toastError =
        some "Failed to delete item") ∧
    ((deleteItemsByFilter (some sampleAdmin) none none RemoteOutcome.err
        LoadOutcome.err INITIAL_ITEMS).items = INITIAL_ITEMS ∧
      (deleteItemsByFilter (some sampleAdmin) none none RemoteOutcome.err
        LoadOutcome.err INITIAL_ITEMS).toastError =
        some "Failed to delete items")) :=
  ⟨rfl,
    C8_remote_failure_leaves_state sampleUser sampleAdmin sampleNewItem
      "item1" "item2" ItemStatus.found none none LoadOutcome.err
      INITIAL_ITEMS rfl⟩

/-- Claim C9: an admin-initiated `deleteItemsByFilter` whose remote delete
succeeds issues the query built by ANDing the optional inclusive date
bounds and the optional type equality (absent filters and `"all"` leave
the axis unconstrained), and then replaces the local list with the result
of a full `loadItems()` reload. -/
theorem C9_deleteItemsByFilter_query_and_reload (adminU : User)
    (dateRange : Option DateRange) (typeFilter : Option TypeFilter)
    (reload : LoadOutcome) (st : List Item)
    (hadmin : adminU.role = UserRole.admin) :
    (deleteItemsByFilter (some adminU) dateRange typeFilter RemoteOutcome.ok
        reload st).remoteDelete = some (buildDeleteQuery dateRange typeFilter) ∧
    (buildDeleteQuery dateRange typeFilter).gteDate =
      dateRange.map DateRange.start ∧
    (buildDeleteQuery dateRange typeFilter).lteDate =
      dateRange.map DateRange.stop ∧
    (∀ t, typeFilter = some (TypeFilter.only t) →
      (buildDeleteQuery dateRange typeFilter).eqType = some t) ∧
    (typeFilter = some TypeFilter.all ∨ typeFilter = none →
      (buildDeleteQuery dateRange typeFilter).eqType = none) ∧
    (deleteItemsByFilter (some adminU) dateRange typeFilter RemoteOutcome.ok
        reload st).items = (loadItems reload).items := by
  refine ⟨?_, ?_, ?_, ?_, ?_, ?_⟩
  · simp [deleteItemsByFilter, hadmin]
  · cases dateRange <;> rcases typeFilter with _ | (_ | t) <;>
      simp [buildDeleteQuery]
  · cases dateRange <;> rcases typeFilter with _ | (_ | t) <;>
      simp [buildDeleteQuery]
  · intro t ht
    subst ht
    cases dateRange <;> simp [buildDeleteQuery]
  · intro ht
    rcases ht with ht | ht <;> subst ht <;> cases dateRange <;>
      simp [buildDeleteQuery]
  · simp [deleteItemsByFilter, hadmin]

/-- Witness for C9 with a concrete date range and type filter. -/
theorem C9_witness :
    sampleAdmin.role = UserRole.admin ∧
    ((deleteItemsByFilter (some sampleAdmin)
        (some { start := "2023-01-01", stop := "2023-12-31" })
        (some (TypeFilter.only ItemType.normal)) RemoteOutcome.ok
        LoadOutcome.err []).remoteDelete =
      some (buildDeleteQuery
        (some { start := "2023-01-01", stop := "2023-12-31" })
        (some (TypeFilter.only ItemType.normal))) ∧
      (buildDeleteQuery (some { start := "2023-01-01", stop := "2023-12-31" })
        (some (TypeFilter.only ItemType.normal))).gteDate =
        (some { start := "2023-01-01", stop := "2023-12-31" } :
          Option DateRange).map DateRange.start ∧
      (buildDeleteQuery (some { start := "2023-01-01", stop := "2023-12-31" })
        (some (TypeFilter.only ItemType.normal))).lteDate =
        (some { start := "2023-01-01", stop := "2023-12-31" } :
          Option DateRange).map DateRange.stop ∧
      (∀ t, (some (TypeFilter.only ItemType.normal) : Option TypeFilter) =
          some (TypeFilter.only t) →
        (buildDeleteQuery (some { start := "2023-01-01", stop := "2023-12-31" })
          (some (TypeFilter.only ItemType.normal))).eqType = some t) ∧
      ((some (TypeFilter.only ItemType.normal) : Option TypeFilter) =
          some TypeFilter.all ∨
        (some (TypeFilter.only ItemType.normal) : Option TypeFilter) = none →
        (buildDeleteQuery (some { start := "2023-01-01", stop := "2023-12-31" })
          (some (TypeFilter.only ItemType.normal))).eqType = none) ∧
      (deleteItemsByFilter (some sampleAdmin)
        (some { start := "2023-01-01", stop := "2023-12-31" })
        (some (TypeFilter.only ItemType.normal)) RemoteOutcome.ok
        LoadOutcome.err []).items = (loadItems LoadOutcome.err).items) :=
  ⟨rfl,
    C9_deleteItemsByFilter_query_and_reload sampleAdmin
      (some { start := "2023-01-01", stop := "2023-12-31" })
      (some (TypeFilter.only ItemType.normal)) LoadOutcome.err [] rfl⟩
